import Mathlib

/-!
Verification of the SQL executor module (`pg_mcp/services/sql_executor.py`).

The development shallowly embeds the four components of the executor:

* the recursive value serializer `serialize_value` (source lines 317-359),
* the row limiter inside `_execute_once` (source lines 214-227),
* the session-hardening protocol `_set_session_params` (source lines 252-277),
* the retry controller `execute` (source lines 123-174).

Modelling conventions:

* Python floats and `decimal.Decimal` values are both modelled as rationals
  (`Rat`).  On every concrete value appearing in the claims (for example
  `99.99`) the IEEE-754 double nearest to the decimal value coincides with the
  double denoted by the float literal, so in the rational model the conversion
  `float(decimal)` is the identity embedding.
* Python's `str.isalnum` is modelled by `Char.isAlphanum`, its ASCII fragment;
  every character the claims mention (semicolon, quote, underscore, comma,
  space, ASCII letters and digits) is classified identically by both.
* The statements issued on a connection are recorded as an abstract trace
  (`SessionStmt`) instead of the interpolated SQL text.
* `await` points play no role in the sequential semantics and are dropped.
-/

namespace PgMcp

/-! ## Python values

`PyVal` models the dynamic values reaching `serialize_value`: the JSON
primitives plus the PostgreSQL-specific types the function dispatches on
(`datetime.date/time/datetime`, `datetime.timedelta`, `decimal.Decimal`,
`uuid.UUID`, `bytes`) and the two containers (`list`/`tuple` and `dict`).
Sequences and mappings are mutual inductives so that all functions below are
structurally recursive and reduce inside the kernel. -/

mutual

inductive PyVal : Type where
  | vNone : PyVal
  | vBool (b : Bool) : PyVal
  | vInt (n : Int) : PyVal
  | vFloat (x : Rat) : PyVal
  | vStr (s : String) : PyVal
  | vDate (year month day : Nat) : PyVal
  | vTime (hour minute second microsecond : Nat) : PyVal
  | vDatetime (year month day hour minute second microsecond : Nat) : PyVal
  | vTimedelta (days : Int) (seconds microseconds : Nat) : PyVal
  | vDecimal (x : Rat) : PyVal
  | vUUID (n : Nat) : PyVal
  | vBytes (bs : List Nat) : PyVal
  | vList (xs : PyValSeq) : PyVal
  | vTuple (xs : PyValSeq) : PyVal
  | vDict (kvs : PyValMap) : PyVal

inductive PyValSeq : Type where
  | nil : PyValSeq
  | cons (head : PyVal) (tail : PyValSeq) : PyValSeq

inductive PyValMap : Type where
  | nil : PyValMap
  | cons (key : PyVal) (value : PyVal) (tail : PyValMap) : PyValMap

end

/-- Left-pads the decimal rendering of `n` with zeros to `width` characters,
matching Python's `%0Nd` formatting for non-negative arguments. -/
def padZeros (width n : Nat) : String :=
  let s := toString n
  String.mk (List.replicate (width - s.length) '0') ++ s

/-- `datetime.date.isoformat()`: `YYYY-MM-DD`. -/
def dateIso (year month day : Nat) : String :=
  padZeros 4 year ++ "-" ++ padZeros 2 month ++ "-" ++ padZeros 2 day

/-- `datetime.time.isoformat()`: `HH:MM:SS`, with a `.ffffff` tail only when
the microsecond component is nonzero. -/
def timeIso (hour minute second microsecond : Nat) : String :=
  padZeros 2 hour ++ ":" ++ padZeros 2 minute ++ ":" ++ padZeros 2 second ++
    (if microsecond = 0 then "" else "." ++ padZeros 6 microsecond)

/-- `datetime.datetime.isoformat()`: date and time joined by `T`. -/
def datetimeIso (year month day hour minute second microsecond : Nat) : String :=
  dateIso year month day ++ "T" ++ timeIso hour minute second microsecond

/-- `str(datetime.timedelta(...))` on a normalized timedelta
(`0 ≤ seconds < 86400`, `0 ≤ microseconds < 1000000`): `H:MM:SS`, prefixed by
`D day(s), ` when the day component is nonzero, suffixed by `.ffffff` when the
microsecond component is nonzero. -/
def timedeltaStr (days : Int) (seconds microseconds : Nat) : String :=
  let base := toString (seconds / 3600) ++ ":" ++ padZeros 2 (seconds / 60 % 60) ++
    ":" ++ padZeros 2 (seconds % 60)
  let base := if days = 0 then base
    else toString days ++ (if days.natAbs = 1 then " day, " else " days, ") ++ base
  if microseconds = 0 then base else base ++ "." ++ padZeros 6 microseconds

/-- The lowercase hexadecimal digit for `n % 16`. -/
def hexChar (n : Nat) : Char :=
  let d := n % 16
  if d < 10 then Char.ofNat (48 + d) else Char.ofNat (87 + d)

/-- The `width` lowercase hexadecimal digits of `n`, most significant first. -/
def hexDigits (n width : Nat) : List Char :=
  (List.range width).map (fun i => hexChar (n / 16 ^ (width - 1 - i)))

/-- `bytes.hex()`: two lowercase hexadecimal digits per byte, concatenated. -/
def bytesHex (bs : List Nat) : String :=
  String.join (bs.map (fun b => String.mk (hexDigits b 2)))

/-- `str(uuid.UUID(...))`: the 32 lowercase hexadecimal digits of the 128-bit
value, hyphenated into groups of 8-4-4-4-12. -/
def uuidStr (n : Nat) : String :=
  let h := hexDigits n 32
  String.mk (h.take 8) ++ "-" ++ String.mk ((h.drop 8).take 4) ++ "-" ++
    String.mk ((h.drop 12).take 4) ++ "-" ++ String.mk ((h.drop 16).take 4) ++ "-" ++
    String.mk (h.drop 20)

/-- `float(value)` on a `decimal.Decimal`.  In the rational model of Python
floats this conversion is the identity embedding; the IEEE rounding both of
the decimal and of the equal float literal produce the same double, so the
model preserves the source's equalities on the values under test. -/
def floatOfDecimal (x : Rat) : Rat := x

/-! ## Value serializer (source lines 317-359)

`serialize_value` mirrors the `isinstance` dispatch chain of the source: the
branches appear in source order, and the final four cases are the `return
value` fall-through for plain scalars.  Python returns a `list` both for list
and for tuple inputs, and serializes only the values of a `dict`. -/

mutual

def serialize_value : PyVal → PyVal
  | .vNone => .vNone
  | .vDate y m d => .vStr (dateIso y m d)
  | .vTime h mi s us => .vStr (timeIso h mi s us)
  | .vDatetime y mo d h mi s us => .vStr (datetimeIso y mo d h mi s us)
  | .vTimedelta d s us => .vStr (timedeltaStr d s us)
  | .vDecimal x => .vFloat (floatOfDecimal x)
  | .vUUID n => .vStr (uuidStr n)
  | .vBytes bs => .vStr (bytesHex bs)
  | .vList xs => .vList (serializeSeq xs)
  | .vTuple xs => .vList (serializeSeq xs)
  | .vDict kvs => .vDict (serializeMap kvs)
  | .vBool b => .vBool b
  | .vInt n => .vInt n
  | .vFloat x => .vFloat x
  | .vStr s => .vStr s

def serializeSeq : PyValSeq → PyValSeq
  | .nil => .nil
  | .cons v vs => .cons (serialize_value v) (serializeSeq vs)

def serializeMap : PyValMap → PyValMap
  | .nil => .nil
  | .cons k v kvs => .cons k (serialize_value v) (serializeMap kvs)

end

/-! ## JSON-compatible values -/

mutual

/-- A value built only from null, strings, integers, floats, booleans, lists
and string-keyed mappings of such values. -/
def isJsonValue : PyVal → Bool
  | .vNone => true
  | .vBool _ => true
  | .vInt _ => true
  | .vFloat _ => true
  | .vStr _ => true
  | .vList xs => isJsonSeq xs
  | .vDict kvs => isJsonMap kvs
  | _ => false

def isJsonSeq : PyValSeq → Bool
  | .nil => true
  | .cons v vs => isJsonValue v && isJsonSeq vs

def isJsonMap : PyValMap → Bool
  | .nil => true
  | .cons k v kvs =>
    (match k with | .vStr _ => true | _ => false) && isJsonValue v && isJsonMap kvs

end

mutual

theorem serializeValue_json_id : ∀ v : PyVal, isJsonValue v = true → serialize_value v = v
  | .vNone, _ => rfl
  | .vBool _, _ => rfl
  | .vInt _, _ => rfl
  | .vFloat _, _ => rfl
  | .vStr _, _ => rfl
  | .vList xs, h => by
      simp only [serialize_value]
      rw [serializeSeq_json_id xs (by simpa [isJsonValue] using h)]
  | .vDict kvs, h => by
      simp only [serialize_value]
      rw [serializeMap_json_id kvs (by simpa [isJsonValue] using h)]

theorem serializeSeq_json_id : ∀ xs : PyValSeq, isJsonSeq xs = true → serializeSeq xs = xs
  | .nil, _ => rfl
  | .cons v vs, h => by
      simp only [isJsonSeq, Bool.and_eq_true] at h
      simp only [serializeSeq]
      rw [serializeValue_json_id v h.1, serializeSeq_json_id vs h.2]

theorem serializeMap_json_id : ∀ kvs : PyValMap, isJsonMap kvs = true → serializeMap kvs = kvs
  | .nil, _ => rfl
  | .cons k v kvs, h => by
      simp only [isJsonMap, Bool.and_eq_true] at h
      simp only [serializeMap]
      rw [serializeValue_json_id v h.1.2, serializeMap_json_id kvs h.2]

end

/-! ## Row limiter (source lines 214-227)

`_execute_once` records `total_count = len(records)` before limiting, then
replaces `records` by `records[:max_rows]` when `len(records) > max_rows`, and
returns the pair `(results, total_count)`. -/

/-- Row limiting and total-count accounting of `_execute_once`. -/
def limitRows {α : Type} (records : List α) (maxRows : Nat) : List α × Nat :=
  let totalCount := records.length
  let limited := if records.length > maxRows then records.take maxRows else records
  (limited, totalCount)

/-- Claim C3: when the fetched row count is at most `max_rows` the rows are
returned unchanged with `total_count` equal to the row count; when it exceeds
`max_rows` the returned rows are exactly the first `max_rows` rows in original
order and `total_count` is the pre-truncation row count. -/
theorem C3_row_limiter {α : Type} (rows : List α) (maxRows : Nat) :
    (rows.length ≤ maxRows → limitRows rows maxRows = (rows, rows.length)) ∧
    (rows.length > maxRows →
      (limitRows rows maxRows).1 = rows.take maxRows ∧
      (limitRows rows maxRows).1.length = maxRows ∧
      (limitRows rows maxRows).2 = rows.length) := by
  constructor
  · intro h
    simp [limitRows, Nat.not_lt.mpr h]
  · intro h
    refine ⟨by simp [limitRows, h], ?_, by simp [limitRows, h]⟩
    simp [limitRows, h, List.length_take, Nat.min_eq_left (Nat.le_of_lt h)]

/-- Witness for C3 at concrete inputs: three rows under a limit of five pass
through unchanged, and three rows under a limit of two are truncated to the
first two with a total count of three. -/
theorem C3_row_limiter_witness :
    limitRows [10, 20, 30] 5 = ([10, 20, 30], 3) ∧
    (limitRows [10, 20, 30] 2).1 = [10, 20] ∧
    (limitRows [10, 20, 30] 2).1.length = 2 ∧
    (limitRows [10, 20, 30] 2).2 = 3 := by
  refine ⟨(C3_row_limiter [10, 20, 30] 5).1 (by decide), ?_⟩
  have h := (C3_row_limiter [10, 20, 30] 2).2 (by decide)
  exact ⟨by rw [h.1]; rfl, h.2.1, h.2.2⟩

/-- Claim C5: `serialize_value` is total over the enumerated input shapes and
maps each per the table: null to null, date/time/datetime to ISO-8601 strings,
durations to their canonical string, decimals to floats (`99.99` to `99.99`),
UUIDs to the canonical lowercase hyphenated string, bytes to lowercase hex
(`[0xDE, 0xAD]` to `"dead"`), lists/tuples and dicts recursively, and any
unlisted type unchanged. -/
theorem C5_serialize_mapping :
    (serialize_value .vNone = .vNone) ∧
    (∀ y m d, serialize_value (.vDate y m d) = .vStr (dateIso y m d)) ∧
    (∀ h mi s us, serialize_value (.vTime h mi s us) = .vStr (timeIso h mi s us)) ∧
    (∀ y mo d h mi s us, serialize_value (.vDatetime y mo d h mi s us) =
      .vStr (datetimeIso y mo d h mi s us)) ∧
    (∀ d s us, serialize_value (.vTimedelta d s us) = .vStr (timedeltaStr d s us)) ∧
    (∀ x, serialize_value (.vDecimal x) = .vFloat (floatOfDecimal x)) ∧
    (serialize_value (.vDecimal (99.99 : Rat)) = .vFloat (99.99 : Rat)) ∧
    (∀ n, serialize_value (.vUUID n) = .vStr (uuidStr n)) ∧
    (serialize_value (.vUUID 0x12345678123456781234567812345678) =
      .vStr "12345678-1234-5678-1234-567812345678") ∧
    (∀ bs, serialize_value (.vBytes bs) = .vStr (bytesHex bs)) ∧
    (serialize_value (.vBytes [0xDE, 0xAD]) = .vStr "dead") ∧
    (∀ xs, serialize_value (.vList xs) = .vList (serializeSeq xs)) ∧
    (∀ xs, serialize_value (.vTuple xs) = .vList (serializeSeq xs)) ∧
    (∀ kvs, serialize_value (.vDict kvs) = .vDict (serializeMap kvs)) ∧
    (∀ s, serialize_value (.vStr s) = .vStr s) ∧
    (∀ n, serialize_value (.vInt n) = .vInt n) ∧
    (∀ x, serialize_value (.vFloat x) = .vFloat x) ∧
    (∀ b, serialize_value (.vBool b) = .vBool b) := by
  refine ⟨rfl, fun _ _ _ => rfl, fun _ _ _ _ => rfl, fun _ _ _ _ _ _ _ => rfl,
    fun _ _ _ => rfl, fun _ => rfl, rfl, fun _ => rfl, ?_, fun _ => rfl, ?_,
    fun _ => rfl, fun _ => rfl, fun _ => rfl, fun _ => rfl, fun _ => rfl,
    fun _ => rfl, fun _ => rfl⟩
  · rfl
  · rfl

/-- Claim C9: serialization is idempotent on JSON-compatible values: every
value built only from null, strings, integers, floats, booleans, lists and
string-keyed mappings of such values is returned unchanged. -/
theorem C9_serialize_idempotent (v : PyVal) (h : isJsonValue v = true) :
    serialize_value v = v :=
  serializeValue_json_id v h

/-- Witness for C9: a concrete JSON-compatible dictionary with a nested list
is returned unchanged. -/
theorem C9_serialize_idempotent_witness :
    isJsonValue (.vDict (.cons (.vStr "a") (.vInt 1)
      (.cons (.vStr "b") (.vList (.cons .vNone (.cons (.vBool true) .nil))) .nil))) = true ∧
    serialize_value (.vDict (.cons (.vStr "a") (.vInt 1)
        (.cons (.vStr "b") (.vList (.cons .vNone (.cons (.vBool true) .nil))) .nil))) =
      .vDict (.cons (.vStr "a") (.vInt 1)
        (.cons (.vStr "b") (.vList (.cons .vNone (.cons (.vBool true) .nil))) .nil)) :=
  ⟨rfl, C9_serialize_idempotent _ rfl⟩

/-! ## Session hardening (source lines 252-277)

`_set_session_params` issues, in order, `SET statement_timeout`, a validated
`SET search_path`, and — when a read-only role is configured (a non-empty
string, per Python truthiness) — a validated `SET ROLE`.  The statements issued
on the connection are recorded as a trace of `SessionStmt` values; a
configuration-validation failure raises `DatabaseError`, modelled as a
`SessionOutcome` other than `ok`.  The model covers the validation control
flow; the wrapping of a server-side `PostgresError` (source lines 279-288) is
outside it, as the claims concern only configuration validation. -/

/-- A session-configuration statement issued on the connection. -/
inductive SessionStmt : Type where
  | setStatementTimeout (ms : Int) : SessionStmt
  | setSearchPath (path : String) : SessionStmt
  | setRole (role : String) : SessionStmt
deriving DecidableEq

/-- Outcome of `_set_session_params`: success, or the `DatabaseError` raised
for an invalid `search_path` or an invalid `readonly_role` configuration. -/
inductive SessionOutcome : Type where
  | ok : SessionOutcome
  | invalidSearchPath (searchPath : String) : SessionOutcome
  | invalidRole (role : String) : SessionOutcome
deriving DecidableEq

/-- Python's `int(...)` on a float/rational: truncation toward zero, computed
as the truncating division of the numerator by the denominator. -/
def pyTruncInt (q : Rat) : Int :=
  q.num.tdiv q.den

/-- The per-character `search_path` check of source line 261:
`c.isalnum() or c in ("_", ",", " ")`. -/
def validSearchPathChar (c : Char) : Bool :=
  c.isAlphanum || c = '_' || c = ',' || c = ' '

/-- The `search_path` validation of source line 261: every character passes
`validSearchPathChar` (`all` over the characters of the string). -/
def validSearchPath (searchPath : String) : Bool :=
  searchPath.toList.all validSearchPathChar

/-- The `readonly_role` validation of source line 272:
`c.isalnum() or c == "_"` for every character. -/
def validRoleName (role : String) : Bool :=
  role.toList.all (fun c => c.isAlphanum || c = '_')

/-- `_set_session_params`: returns the trace of statements issued on the
connection (in order) together with the outcome.  Mirrors the source: the
statement-timeout `SET` is issued first, then the search path is validated and
set, then — only when a role is configured and truthy (non-empty) — the role
is validated and set. -/
def setSessionParams (timeout : Rat) (searchPath : String) (readonlyRole : Option String) :
    List SessionStmt × SessionOutcome :=
  let timeoutMs := pyTruncInt (timeout * 1000)
  let issued := [SessionStmt.setStatementTimeout timeoutMs]
  if !validSearchPath searchPath then
    (issued, .invalidSearchPath searchPath)
  else
    let issued := issued ++ [SessionStmt.setSearchPath searchPath]
    match readonlyRole with
    | none => (issued, .ok)
    | some role =>
      if role.isEmpty then (issued, .ok)
      else if !validRoleName role then (issued, .invalidRole role)
      else (issued ++ [SessionStmt.setRole role], .ok)

/-- Counterexample to claim C2 as stated: for the search path
`"public; DROP TABLE users"` (which contains a semicolon) the configuration is
rejected, but the trace of issued statements has length 1 — the
statement-timeout `SET` executes before the search-path validation runs — so
"zero statements are issued on the connection" is false. -/
theorem C2_counterexample :
    validSearchPath "public; DROP TABLE users" = false ∧
    (setSessionParams 5 "public; DROP TABLE users" none).2 =
      .invalidSearchPath "public; DROP TABLE users" ∧
    (setSessionParams 5 "public; DROP TABLE users" none).1 =
      [.setStatementTimeout 5000] ∧
    (setSessionParams 5 "public; DROP TABLE users" none).1.length ≠ 0 := by
  have hv : validSearchPath "public; DROP TABLE users" = false := by decide
  have ht : pyTruncInt (5 * 1000) = 5000 := by norm_num [pyTruncInt]
  have h1 : setSessionParams 5 "public; DROP TABLE users" none =
      ([.setStatementTimeout 5000], .invalidSearchPath "public; DROP TABLE users") := by
    simp [setSessionParams, hv, ht]
  exact ⟨hv, by rw [h1], by rw [h1], by rw [h1]; decide⟩

/-- Claim C2 amended: a configured `search_path` containing a character
outside the allowed class is rejected with an error before the search-path
command executes; at that point exactly one statement — the statement-timeout
`SET` — has been issued, and no search-path or role statement is ever
issued. -/
theorem C2_amended_reject_invalid_search_path (timeout : Rat) (searchPath : String)
    (readonlyRole : Option String) (h : validSearchPath searchPath = false) :
    setSessionParams timeout searchPath readonlyRole =
      ([.setStatementTimeout (pyTruncInt (timeout * 1000))],
        .invalidSearchPath searchPath) := by
  simp [setSessionParams, h]

/-- Witness for the amended C2: a semicolon-bearing search path is rejected
after exactly the statement-timeout command. -/
theorem C2_amended_witness :
    setSessionParams 5 "public; DROP TABLE users" (some "readonly") =
      ([.setStatementTimeout 5000], .invalidSearchPath "public; DROP TABLE users") := by
  have h := C2_amended_reject_invalid_search_path 5 "public; DROP TABLE users"
    (some "readonly") (by decide)
  rw [h]
  norm_num [pyTruncInt]

/-- Claim C8: session hardening executes its steps in the fixed order
statement-timeout, search-path, then role; the role step runs only when a
read-only role is configured, after validating the role identifier, and an
invalid role identifier is rejected without issuing `SET ROLE`. -/
theorem C8_session_order (timeout : Rat) (searchPath : String) (role : String)
    (hsp : validSearchPath searchPath = true) :
    (setSessionParams timeout searchPath none =
      ([.setStatementTimeout (pyTruncInt (timeout * 1000)),
        .setSearchPath searchPath], .ok)) ∧
    (role.isEmpty = false → validRoleName role = true →
      setSessionParams timeout searchPath (some role) =
        ([.setStatementTimeout (pyTruncInt (timeout * 1000)),
          .setSearchPath searchPath, .setRole role], .ok)) ∧
    (role.isEmpty = false → validRoleName role = false →
      setSessionParams timeout searchPath (some role) =
        ([.setStatementTimeout (pyTruncInt (timeout * 1000)),
          .setSearchPath searchPath], .invalidRole role)) := by
  refine ⟨by simp [setSessionParams, hsp], ?_, ?_⟩
  · intro hne hrole
    simp [setSessionParams, hsp, hne, hrole]
  · intro hne hrole
    simp [setSessionParams, hsp, hne, hrole]

/-- Witness for C8: with search path `"public"` and timeout 5 the trace is
timeout-then-path-then-role for the valid role `"readonly_user"`, and the
invalid role `"bad;role"` is rejected without a `SET ROLE` statement. -/
theorem C8_session_order_witness :
    setSessionParams 5 "public" (some "readonly_user") =
      ([.setStatementTimeout 5000, .setSearchPath "public",
        .setRole "readonly_user"], .ok) ∧
    setSessionParams 5 "public" (some "bad;role") =
      ([.setStatementTimeout 5000, .setSearchPath "public"],
        .invalidRole "bad;role") := by
  constructor
  · have h := (C8_session_order 5 "public" "readonly_user" (by decide)).2.1
      (by decide) (by decide)
    rw [h]; norm_num [pyTruncInt]
  · have h := (C8_session_order 5 "public" "bad;role" (by decide)).2.2
      (by decide) (by decide)
    rw [h]; norm_num [pyTruncInt]

/-! ## Default-argument resolution in `execute` (source lines 123-125)

`execute` substitutes the configured defaults with Python's `or`:
`timeout = timeout or self.security_config.max_execution_time` and
`max_rows = max_rows or self.security_config.max_rows`.  `or` substitutes the
default for every falsy left operand — `None`, but also `0`/`0.0`. -/

/-- `timeout or security_config.max_execution_time` (source line 124). -/
def orDefaultTimeout (timeout : Option Rat) (cfgMaxExecutionTime : Rat) : Rat :=
  match timeout with
  | none => cfgMaxExecutionTime
  | some t => if t = 0 then cfgMaxExecutionTime else t

/-- `max_rows or security_config.max_rows` (source line 125). -/
def orDefaultMaxRows (maxRows : Option Nat) (cfgMaxRows : Nat) : Nat :=
  match maxRows with
  | none => cfgMaxRows
  | some m => if m = 0 then cfgMaxRows else m

/-- Claim C10: `execute` substitutes the configured defaults for falsy
arguments, not only for `None`: `timeout = 0` resolves to
`security_config.max_execution_time` (not a zero timeout) and `max_rows = 0`
resolves to `security_config.max_rows`, so the result is capped at the
configured maximum rather than truncated to zero rows. -/
theorem C10_falsy_defaults {α : Type} (cfgTime : Rat) (cfgRows : Nat) (rows : List α) :
    orDefaultTimeout (some 0) cfgTime = cfgTime ∧
    orDefaultTimeout none cfgTime = cfgTime ∧
    orDefaultMaxRows (some 0) cfgRows = cfgRows ∧
    orDefaultMaxRows none cfgRows = cfgRows ∧
    limitRows rows (orDefaultMaxRows (some 0) cfgRows) = limitRows rows cfgRows ∧
    setSessionParams (orDefaultTimeout (some 0) cfgTime) "public" none =
      setSessionParams cfgTime "public" none := by
  refine ⟨rfl, rfl, rfl, rfl, rfl, rfl⟩

/-! ## Retry controller (source lines 123-174)

`execute` runs `for attempt in range(max_retries + 1)`, calling
`_execute_once` each iteration.  The outcome of the `i`-th call is abstracted
as `outcome i : AttemptOutcome α` (success value, `ExecutionTimeoutError`,
`asyncpg.PostgresError` with its `sqlstate`, or any other exception).  The
model recurses on the fuel `remaining = max_retries - attempt`; the source's
retry condition `attempt < max_retries` is exactly `remaining > 0`.  The trace
records the number of `_execute_once` calls performed, the backoff sleeps in
order (`await asyncio.sleep(delay)` followed by `delay *= backoff_factor`),
and the final result.  The fall-through after the loop (source lines 168-174)
is unreachable for a natural `max_retries`, because on the last iteration a
transient error fails `attempt < max_retries` and raises; it therefore has no
counterpart in the model. -/

/-- Transient PostgreSQL error codes that warrant retry (source lines 23-35). -/
def RETRYABLE_ERROR_CODES : List String :=
  ["08000", "08003", "08006", "08001", "08004",
   "40001", "40P01", "53300", "57P01", "57P02", "57P03"]

/-- Outcome of one `_execute_once` call, as observed by `execute`. -/
inductive AttemptOutcome (α : Type) : Type where
  | success (res : α) : AttemptOutcome α
  | timeout : AttemptOutcome α
  | pgError (sqlstate : Option String) (msg : String) : AttemptOutcome α
  | otherError (errType errMsg : String) : AttemptOutcome α

/-- The source's retry test `error_code in RETRYABLE_ERROR_CODES`, where
`error_code = getattr(e, "sqlstate", None)`; a missing code is never
retryable. -/
def retryableCode : Option String → Bool
  | some code => RETRYABLE_ERROR_CODES.contains code
  | none => false

/-- An attempt outcome is transient when it is a database error whose
`sqlstate` is in the recognized transient set. -/
def AttemptOutcome.isTransient {α : Type} : AttemptOutcome α → Bool
  | .pgError code _ => retryableCode code
  | _ => false

/-- Terminal result of `execute`: the returned pair, or one of the raised
errors.  `dbError` carries the `details` dictionary of source lines 151-156:
error code, error message, the query text truncated to 200 characters, and the
attempt count `attempt + 1`. -/
inductive ExecResult (α : Type) : Type where
  | ok (res : α) : ExecResult α
  | timeoutErr : ExecResult α
  | dbError (errorCode : Option String) (errorMessage : String)
      (sqlTrunc : String) (attempts : Nat) : ExecResult α
  | unexpectedError (errType errMsg : String) : ExecResult α

/-- Observable trace of one `execute` call: how many `_execute_once` calls
ran, the backoff sleeps in order, and the terminal result. -/
structure ExecTrace (α : Type) : Type where
  attempts : Nat
  sleeps : List Rat
  result : ExecResult α

/-- The retry loop of `execute` from a given iteration on:
`remaining` is the number of retries still allowed (`max_retries - attempt`),
`attemptIdx` the current value of `attempt`, `delay` the current backoff
delay.  A success or a timeout returns/raises at once; a non-database error is
wrapped without retry; a database error retries only when its code is
transient and retries remain, sleeping `delay` and multiplying it by the
backoff factor, and is otherwise wrapped as a terminal database error. -/
def executeGo {α : Type} (outcome : Nat → AttemptOutcome α) (sql : String)
    (backoffFactor : Rat) : Nat → Nat → Rat → ExecTrace α
  | 0, attemptIdx, _ =>
    -- Last iteration (`attempt = max_retries`): `attempt < max_retries` is
    -- false, so a database error is wrapped whether or not it is transient.
    match outcome attemptIdx with
    | .success res => ⟨attemptIdx + 1, [], .ok res⟩
    | .timeout => ⟨attemptIdx + 1, [], .timeoutErr⟩
    | .otherError ty msg => ⟨attemptIdx + 1, [], .unexpectedError ty msg⟩
    | .pgError code msg =>
      ⟨attemptIdx + 1, [], .dbError code msg (sql.take 200) (attemptIdx + 1)⟩
  | r + 1, attemptIdx, delay =>
    match outcome attemptIdx with
    | .success res => ⟨attemptIdx + 1, [], .ok res⟩
    | .timeout => ⟨attemptIdx + 1, [], .timeoutErr⟩
    | .otherError ty msg => ⟨attemptIdx + 1, [], .unexpectedError ty msg⟩
    | .pgError code msg =>
      if retryableCode code then
        let t := executeGo outcome sql backoffFactor r (attemptIdx + 1) (delay * backoffFactor)
        ⟨t.attempts, delay :: t.sleeps, t.result⟩
      else
        ⟨attemptIdx + 1, [], .dbError code msg (sql.take 200) (attemptIdx + 1)⟩

/-- `execute` (after default resolution): the retry loop started at attempt 0
with the configured initial delay. -/
def executeModel {α : Type} (outcome : Nat → AttemptOutcome α) (sql : String)
    (maxRetries : Nat) (retryDelay backoffFactor : Rat) : ExecTrace α :=
  executeGo outcome sql backoffFactor maxRetries 0 retryDelay

theorem isTransient_shape {α : Type} (o : AttemptOutcome α) (h : o.isTransient = true) :
    ∃ code msg, o = .pgError code msg ∧ retryableCode code = true := by
  cases o with
  | pgError code msg =>
    exact ⟨code, msg, rfl, by simpa [AttemptOutcome.isTransient] using h⟩
  | success res => simp [AttemptOutcome.isTransient] at h
  | timeout => simp [AttemptOutcome.isTransient] at h
  | otherError ty msg => simp [AttemptOutcome.isTransient] at h

theorem executeGo_timeout_step {α : Type} (outcome : Nat → AttemptOutcome α) (sql : String)
    (b : Rat) (remaining idx : Nat) (delay : Rat) (h : outcome idx = .timeout) :
    executeGo outcome sql b remaining idx delay = ⟨idx + 1, [], .timeoutErr⟩ := by
  cases remaining <;> simp [executeGo, h]

theorem executeGo_zero_step {α : Type} (outcome : Nat → AttemptOutcome α) (sql : String)
    (b : Rat) (idx : Nat) (delay : Rat) (code : Option String) (msg : String)
    (hout : outcome idx = .pgError code msg) :
    executeGo outcome sql b 0 idx delay =
      ⟨idx + 1, [], .dbError code msg (sql.take 200) (idx + 1)⟩ := by
  simp [executeGo, hout]

theorem executeGo_nonretryable_step {α : Type} (outcome : Nat → AttemptOutcome α) (sql : String)
    (b : Rat) (remaining idx : Nat) (delay : Rat) (code : Option String) (msg : String)
    (hout : outcome idx = .pgError code msg) (hret : retryableCode code = false) :
    executeGo outcome sql b remaining idx delay =
      ⟨idx + 1, [], .dbError code msg (sql.take 200) (idx + 1)⟩ := by
  cases remaining <;> simp [executeGo, hout, hret]

theorem executeGo_retry_step {α : Type} (outcome : Nat → AttemptOutcome α) (sql : String)
    (b : Rat) (r idx : Nat) (delay : Rat) (code : Option String) (msg : String)
    (hout : outcome idx = .pgError code msg) (hret : retryableCode code = true) :
    executeGo outcome sql b (r + 1) idx delay =
      ⟨(executeGo outcome sql b r (idx + 1) (delay * b)).attempts,
        delay :: (executeGo outcome sql b r (idx + 1) (delay * b)).sleeps,
        (executeGo outcome sql b r (idx + 1) (delay * b)).result⟩ := by
  simp [executeGo, hout, hret]

theorem geom_range_cons (delay b : Rat) (k : Nat) :
    delay :: (List.range k).map (fun i => delay * b * b ^ i) =
      (List.range (k + 1)).map (fun i => delay * b ^ i) := by
  rw [List.range_succ_eq_map, List.map_cons, List.map_map]
  congr 1
  · simp
  · congr 1
    funext i
    simp only [Function.comp_apply, pow_succ]
    ring

/-- Running the loop past `k` consecutive transient failures: the trace is the
`k` geometric sleeps followed by the trace of the loop restarted `k` attempts
later with the delay multiplied by `backoffFactor ^ k`. -/
theorem executeGo_skip {α : Type} (outcome : Nat → AttemptOutcome α) (sql : String) (b : Rat) :
    ∀ (k remaining idx : Nat) (delay : Rat), k ≤ remaining →
      (∀ i, i < k → (outcome (idx + i)).isTransient = true) →
      executeGo outcome sql b remaining idx delay =
        ⟨(executeGo outcome sql b (remaining - k) (idx + k) (delay * b ^ k)).attempts,
          (List.range k).map (fun i => delay * b ^ i) ++
            (executeGo outcome sql b (remaining - k) (idx + k) (delay * b ^ k)).sleeps,
          (executeGo outcome sql b (remaining - k) (idx + k) (delay * b ^ k)).result⟩ := by
  intro k
  induction k with
  | zero =>
    intro remaining idx delay _ _
    simp
  | succ k ih =>
    intro remaining idx delay hk htrans
    obtain ⟨r, rfl⟩ : ∃ r, remaining = r + 1 := ⟨remaining - 1, by omega⟩
    have h0 : (outcome idx).isTransient = true := by simpa using htrans 0 (Nat.succ_pos k)
    obtain ⟨code, msg, hout, hret⟩ := isTransient_shape (outcome idx) h0
    rw [executeGo_retry_step outcome sql b r idx delay code msg hout hret]
    have ih2 := ih r (idx + 1) (delay * b) (by omega) (fun i hi => by
      have := htrans (i + 1) (by omega)
      have he : idx + (i + 1) = idx + 1 + i := by omega
      rwa [he] at this)
    rw [ih2]
    have e1 : r + 1 - (k + 1) = r - k := by omega
    have e2 : idx + (k + 1) = idx + 1 + k := by omega
    have e3 : delay * b ^ (k + 1) = delay * b * b ^ k := by ring
    rw [e1, e2, e3]
    have e4 := geom_range_cons delay b k
    simp only [← List.cons_append, e4]

/-- Under persistently transient failure, every attempt is consumed and the
trace ends in a terminal database error recording `maxRetries + 1` attempts,
after the full geometric sequence of sleeps. -/
theorem executeModel_transient {α : Type} (outcome : Nat → AttemptOutcome α) (sql : String)
    (d b : Rat) (h : ∀ i, (outcome i).isTransient = true) (maxRetries : Nat) :
    ∃ code msg,
      executeModel outcome sql maxRetries d b =
        ⟨maxRetries + 1, (List.range maxRetries).map (fun i => d * b ^ i),
          .dbError code msg (sql.take 200) (maxRetries + 1)⟩ := by
  obtain ⟨code, msg, hout, hret⟩ := isTransient_shape (outcome maxRetries) (h maxRetries)
  refine ⟨code, msg, ?_⟩
  unfold executeModel
  rw [executeGo_skip outcome sql b maxRetries maxRetries 0 d le_rfl (fun i _ => h (0 + i))]
  rw [Nat.sub_self]
  rw [executeGo_zero_step outcome sql b (0 + maxRetries) (d * b ^ maxRetries) code msg
    (by simpa using hout)]
  simp

/-- In every trace of the retry loop the sleeps form the geometric sequence
starting at the current delay. -/
theorem executeGo_sleeps {α : Type} (outcome : Nat → AttemptOutcome α) (sql : String) (b : Rat) :
    ∀ (remaining idx : Nat) (delay : Rat),
      (executeGo outcome sql b remaining idx delay).sleeps =
        (List.range (executeGo outcome sql b remaining idx delay).sleeps.length).map
          (fun i => delay * b ^ i) := by
  intro remaining
  induction remaining with
  | zero =>
    intro idx delay
    cases hout : outcome idx with
    | success res => simp [executeGo, hout]
    | timeout => simp [executeGo, hout]
    | otherError ty msg => simp [executeGo, hout]
    | pgError code msg => simp [executeGo, hout]
  | succ r ih =>
    intro idx delay
    cases hout : outcome idx with
    | success res => simp [executeGo, hout]
    | timeout => simp [executeGo, hout]
    | otherError ty msg => simp [executeGo, hout]
    | pgError code msg =>
      cases hc : retryableCode code with
      | false => simp [executeGo, hout, hc]
      | true =>
        rw [executeGo_retry_step outcome sql b r idx delay code msg hout hc]
        show delay :: (executeGo outcome sql b r (idx + 1) (delay * b)).sleeps =
          (List.range
            (delay :: (executeGo outcome sql b r (idx + 1) (delay * b)).sleeps).length).map
            (fun i => delay * b ^ i)
        rw [List.length_cons]
        conv_lhs => rw [ih (idx + 1) (delay * b)]
        exact geom_range_cons delay b _

/-- Claim C1: under persistently transient failure (every attempt raises a
database error whose code is in the recognized transient set), `execute` with
`max_retries = 3` performs exactly 4 total attempts (`max_retries + 1` in
general), never a fifth, and then raises a terminal `DatabaseError` recording
4 attempts. -/
theorem C1_retry_bound {α : Type} (outcome : Nat → AttemptOutcome α) (sql : String)
    (d b : Rat) (h : ∀ i, (outcome i).isTransient = true) :
    (∀ maxRetries, (executeModel outcome sql maxRetries d b).attempts = maxRetries + 1) ∧
    (executeModel outcome sql 3 d b).attempts = 4 ∧
    (∃ code msg, (executeModel outcome sql 3 d b).result =
      .dbError code msg (sql.take 200) 4) := by
  refine ⟨?_, ?_, ?_⟩
  · intro m
    obtain ⟨code, msg, he⟩ := executeModel_transient outcome sql d b h m
    rw [he]
  · obtain ⟨code, msg, he⟩ := executeModel_transient outcome sql d b h 3
    rw [he]
  · obtain ⟨code, msg, he⟩ := executeModel_transient outcome sql d b h 3
    exact ⟨code, msg, by rw [he]⟩

/-- Witness for C1: with every attempt failing on the transient serialization
code `40001`, `execute` with `max_retries = 3` makes exactly 4 attempts and
ends in a terminal database error recording 4 attempts. -/
theorem C1_retry_bound_witness :
    (executeModel (fun _ => AttemptOutcome.pgError (some "40001") "deadlock detected" :
        Nat → AttemptOutcome Unit) "SELECT 1" 3 1 2).attempts = 4 ∧
    (∃ code msg,
      (executeModel (fun _ => AttemptOutcome.pgError (some "40001") "deadlock detected" :
          Nat → AttemptOutcome Unit) "SELECT 1" 3 1 2).result =
        .dbError code msg ("SELECT 1".take 200) 4) :=
  ⟨(C1_retry_bound _ "SELECT 1" 1 2 (fun _ => by decide)).2.1,
    (C1_retry_bound _ "SELECT 1" 1 2 (fun _ => by decide)).2.2⟩

/-- Claim C4: a timeout is propagated immediately with no retry: if the
attempts before `k` were transient failures and attempt `k` times out, the
call ends with `ExecutionTimeoutError` after exactly `k + 1` attempts and `k`
sleeps; in particular a timeout on the first attempt of a `max_retries = 3`
policy yields exactly 1 attempt and no backoff sleep. -/
theorem C4_timeout_no_retry {α : Type} (outcome : Nat → AttemptOutcome α) (sql : String)
    (d b : Rat) (maxRetries k : Nat) (hk : k ≤ maxRetries)
    (hprev : ∀ i, i < k → (outcome i).isTransient = true)
    (ht : outcome k = .timeout) :
    (executeModel outcome sql maxRetries d b).result = .timeoutErr ∧
    (executeModel outcome sql maxRetries d b).attempts = k + 1 ∧
    (executeModel outcome sql maxRetries d b).sleeps.length = k := by
  unfold executeModel
  rw [executeGo_skip outcome sql b k maxRetries 0 d hk (fun i hi => by simpa using hprev i hi)]
  rw [executeGo_timeout_step outcome sql b (maxRetries - k) (0 + k) (d * b ^ k)
    (by simpa using ht)]
  simp

/-- Witness for C4: a timeout on the first attempt under `max_retries = 3`
gives one attempt, a timeout error, and zero sleeps. -/
theorem C4_timeout_no_retry_witness :
    (executeModel (fun _ => AttemptOutcome.timeout : Nat → AttemptOutcome Unit)
      "SELECT 1" 3 1 2).result = .timeoutErr ∧
    (executeModel (fun _ => AttemptOutcome.timeout : Nat → AttemptOutcome Unit)
      "SELECT 1" 3 1 2).attempts = 1 ∧
    (executeModel (fun _ => AttemptOutcome.timeout : Nat → AttemptOutcome Unit)
      "SELECT 1" 3 1 2).sleeps.length = 0 :=
  C4_timeout_no_retry _ "SELECT 1" 1 2 3 0 (Nat.zero_le 3)
    (fun i hi => absurd hi (Nat.not_lt_zero i)) rfl

/-- Claim C6: within one `execute` call the backoff sleeps form the geometric
sequence `initial_delay * backoff_factor ^ n` (zero-indexed, i.e. the n-th
sleep is `initial_delay * backoff_factor ^ (n-1)` one-indexed), with no upper
cap; for `backoff_factor > 1` and positive initial delay the sequence is
strictly increasing, and under persistent transient failure with
`initial_delay = 1`, `backoff_factor = 2`, `max_retries = 3` the successive
delays are 1, 2, 4. -/
theorem C6_backoff_growth {α : Type} (outcome : Nat → AttemptOutcome α) (sql : String)
    (d b : Rat) (maxRetries : Nat) :
    ((executeModel outcome sql maxRetries d b).sleeps =
      (List.range (executeModel outcome sql maxRetries d b).sleeps.length).map
        (fun i => d * b ^ i)) ∧
    (0 < d → 1 < b →
      (executeModel outcome sql maxRetries d b).sleeps.Chain' (· < ·)) ∧
    ((∀ i, (outcome i).isTransient = true) →
      (executeModel outcome sql 3 1 2).sleeps = [1, 2, 4]) := by
  refine ⟨executeGo_sleeps outcome sql b maxRetries 0 d, ?_, ?_⟩
  · intro hd hb
    unfold executeModel
    rw [executeGo_sleeps outcome sql b maxRetries 0 d]
    refine List.Pairwise.chain' ?_
    refine (List.pairwise_map).mpr ?_
    refine List.Pairwise.imp ?_ (List.pairwise_lt_range _)
    intro i j hij
    have hpow : b ^ i < b ^ j := by
      exact pow_lt_pow_right₀ hb hij
    exact mul_lt_mul_of_pos_left hpow hd
  · intro h
    obtain ⟨code, msg, he⟩ := executeModel_transient outcome sql 1 2 h 3
    have hs : (executeModel outcome sql 3 1 2).sleeps =
        (List.range 3).map (fun i => (1 : Rat) * 2 ^ i) := by rw [he]
    rw [hs]
    norm_num [List.range_succ]

/-- Witness for C6: under persistent transient failure with initial delay 1
and factor 2, the sleeps are exactly 1, 2, 4 and strictly increasing. -/
theorem C6_backoff_growth_witness :
    (executeModel (fun _ => AttemptOutcome.pgError (some "40001") "deadlock detected" :
        Nat → AttemptOutcome Unit) "SELECT 1" 3 1 2).sleeps = [1, 2, 4] ∧
    (executeModel (fun _ => AttemptOutcome.pgError (some "40001") "deadlock detected" :
        Nat → AttemptOutcome Unit) "SELECT 1" 3 1 2).sleeps.Chain' (· < ·) :=
  ⟨(C6_backoff_growth _ "SELECT 1" 1 2 3).2.2 (fun _ => by decide),
    (C6_backoff_growth _ "SELECT 1" 1 2 3).2.1 (by norm_num) (by norm_num)⟩

/-- Claim C7: a database error that is not transient, or transient on the
final allowed attempt, is wrapped immediately — no further retry — as a
`DatabaseError` whose details carry the error code, the query text truncated
to its first 200 characters, and the attempt count. -/
theorem C7_terminal_database_error {α : Type} (outcome : Nat → AttemptOutcome α) (sql : String)
    (d b : Rat) (maxRetries k : Nat) (code : Option String) (msg : String)
    (hk : k ≤ maxRetries)
    (hprev : ∀ i, i < k → (outcome i).isTransient = true)
    (hout : outcome k = .pgError code msg)
    (hterm : retryableCode code = false ∨ k = maxRetries) :
    (executeModel outcome sql maxRetries d b).result =
      .dbError code msg (sql.take 200) (k + 1) ∧
    (executeModel outcome sql maxRetries d b).attempts = k + 1 := by
  unfold executeModel
  rw [executeGo_skip outcome sql b k maxRetries 0 d hk (fun i hi => by simpa using hprev i hi)]
  have hstep : executeGo outcome sql b (maxRetries - k) (0 + k) (d * b ^ k) =
      ⟨(0 + k) + 1, [], .dbError code msg (sql.take 200) ((0 + k) + 1)⟩ := by
    rcases hterm with hret | hmax
    · exact executeGo_nonretryable_step outcome sql b (maxRetries - k) (0 + k) (d * b ^ k)
        code msg (by simpa using hout) hret
    · subst hmax
      rw [Nat.sub_self]
      exact executeGo_zero_step outcome sql b (0 + k) (d * b ^ k) code msg (by simpa using hout)
  rw [hstep]
  simp

/-- Witness for C7: a non-transient syntax error (`42601`) on the first
attempt under `max_retries = 3` is wrapped at once with the truncated query
text and an attempt count of 1. -/
theorem C7_terminal_database_error_witness :
    (executeModel (fun _ => AttemptOutcome.pgError (some "42601") "syntax error" :
        Nat → AttemptOutcome Unit) "SELECT x FROM" 3 1 2).result =
      .dbError (some "42601") "syntax error" ("SELECT x FROM".take 200) 1 ∧
    (executeModel (fun _ => AttemptOutcome.pgError (some "42601") "syntax error" :
        Nat → AttemptOutcome Unit) "SELECT x FROM" 3 1 2).attempts = 1 :=
  C7_terminal_database_error _ "SELECT x FROM" 1 2 3 0 (some "42601") "syntax error"
    (Nat.zero_le 3) (fun i hi => absurd hi (Nat.not_lt_zero i)) rfl (Or.inl (by decide))

end PgMcp
